import Mathlib

/-!
Formal model of the rag-devops retrieval service.

This file gives a shallow embedding, in Lean, of the retrieval core of the
repository: the query-time search endpoint (`src/service/api_advance/api.py`)
and the document-ingestion pipeline (`src/service/embedding_advance/embedding.py`),
together with theorems settling the behavioural claims about them.

Modelling conventions:
- Embedding vectors are `List Int` (the claims only concern vector lengths,
  configuration identity and error routing, never float arithmetic), and the
  embedding model itself — an external neural network — is an abstract
  parameter `embed : String → List Int`.
- The OpenSearch engine is an external collaborator; its search behaviour is
  modelled from the spec's Index Store boundary (spec sections 4.4 and 6):
  a missing index raises a not-found transport error, a per-record dimension
  mismatch surfaces as a request error, otherwise the top `size` records by
  descending score are returned.
- Stateful code is modelled by explicit state passing; raised exceptions by
  `Except`; log output by `List String` of the rendered messages.
-/

/-! ### Configuration constants (embedding.py lines 29-36, api.py lines 22-23) -/

def OPENSEARCH_INDEX : String := "webinar_pdf_index"

def TEXT_FIELD : String := "content"

def EMBEDDING_FIELD : String := "embedding"

def CHUNK_SIZE : Nat := 512

def CHUNK_OVERLAP : Nat := 128

def MODEL_NAME : String := "BAAI/bge-m3"

def VECTOR_DIM : Nat := 1024

/-! ### Embedder configurations of the two paths (claim C1)

The ingestion path (embedding.py lines 153-158) builds
`HuggingFaceEmbedding(model_name=MODEL_NAME, max_length=CHUNK_SIZE, device=device)`;
the query path (api.py line 19) builds `SentenceTransformer('BAAI/bge-m3')` and
casts the produced vector to float32 (api.py line 82). The configurations are
captured as data so that they can be compared. -/

structure EmbedderConfig where
  library : String
  modelName : String
  maxLength : Option Nat
  castOutputToFloat32 : Bool
deriving DecidableEq

/-- Embedder configuration at ingestion time (embedding.py lines 153-158). -/
def ingestionEmbedderConfig : EmbedderConfig :=
  { library := "llama_index.embeddings.huggingface.HuggingFaceEmbedding"
    modelName := MODEL_NAME
    maxLength := some CHUNK_SIZE
    castOutputToFloat32 := false }

/-- Embedder configuration at query time (api.py lines 19 and 81-82). -/
def queryEmbedderConfig : EmbedderConfig :=
  { library := "sentence_transformers.SentenceTransformer"
    modelName := "BAAI/bge-m3"
    maxLength := none
    castOutputToFloat32 := true }

/-! ### Data model of the search endpoint (api.py) -/

/-- Request body of the POST /search endpoint (api.py lines 15-16): a single
`query` field and nothing else. -/
structure QueryRequest where
  query : String
deriving DecidableEq

/-- The OpenSearch request body assembled by `create_search_query`
(api.py lines 34-53), flattened to its payload fields. -/
structure SearchQuery where
  size : Nat
  sourceFields : List String
  scriptLang : String
  scriptSource : String
  field : String
  queryValue : List Int
  spaceType : String
deriving DecidableEq

/-- api.py lines 34-53: build the script-score similarity query.  The source
gives `top_k` the default value 3; the one call site (api.py line 85) uses
that default. -/
def create_search_query (query_vector : List Int) (top_k : Nat) : SearchQuery :=
  { size := top_k
    sourceFields := [TEXT_FIELD, "metadata"]
    scriptLang := "knn"
    scriptSource := "knn_score"
    field := EMBEDDING_FIELD
    queryValue := query_vector
    spaceType := "cosinesimil" }

/-- A persisted index record: (text, metadata, vector), the store's unit. -/
structure Record where
  content : String
  metadata : List (String × String)
  embedding : List Int
deriving DecidableEq

/-- Exceptions raised by the opensearchpy client: `RequestError` (HTTP 400,
malformed request) is the class the endpoint catches specifically; a missing
index raises `NotFoundError`; everything else (network, engine) is `other`. -/
inductive StoreException where
  | notFound (detail : String)
  | requestError (detail : String)
  | other (detail : String)
deriving DecidableEq

/-- `str(e)` of a store exception. -/
def strOfExn : StoreException → String
  | .notFound d => d
  | .requestError d => d
  | .other d => d

/-- A search hit as returned by the store: the `_source` restricted to the
requested fields (either may be absent) plus the score. -/
structure Hit where
  content : Option String
  metadata : Option (List (String × String))
  score : Int
deriving DecidableEq

/-- Insert a hit into a list sorted by descending score. -/
def insertHit (h : Hit) : List Hit → List Hit
  | [] => [h]
  | h2 :: rest => if h2.score < h.score then h :: h2 :: rest else h2 :: insertHit h rest

/-- Sort hits by descending score (the store returns ranked hits). -/
def sortHits : List Hit → List Hit
  | [] => []
  | h :: rest => insertHit h (sortHits rest)

/-- Detail string of the missing-index transport error. -/
def notFoundDetail : String := s!"no such index [{OPENSEARCH_INDEX}]"

/-- Model of the external OpenSearch engine's search call (spec sections 4.4
and 6).  The index state is `none` when the index does not exist, otherwise
`some records`.  A missing index raises `NotFoundError`; a record whose vector
length differs from the query vector's surfaces a request error
(`search_phase_execution_exception`); otherwise the top `size` records by
descending score are returned.  `score` abstracts the engine's cosine-similarity
scoring. -/
def opensearchSearch (score : List Int → List Int → Int)
    (state : Option (List Record)) (q : SearchQuery) : Except StoreException (List Hit) :=
  match state with
  | none => .error (.notFound notFoundDetail)
  | some records =>
    if records.any (fun r => r.embedding.length ≠ q.queryValue.length) then
      .error (.requestError "search_phase_execution_exception")
    else
      .ok ((sortHits (records.map (fun r =>
        { content := some r.content, metadata := some r.metadata,
          score := score q.queryValue r.embedding }))).take q.size)

/-- A FastAPI HTTPException: status code and detail string. -/
structure HTTPException where
  status_code : Nat
  detail : String
deriving DecidableEq

/-- One element of the `results` list built by the endpoint
(api.py lines 97-105). -/
structure SearchResult where
  text : String
  metadata : List (String × String)
  score : Int
  file_path : String
deriving DecidableEq

/-- The endpoint's success body (api.py line 107): only a `results` list —
there is no further field. -/
structure SearchResponse where
  results : List SearchResult
deriving DecidableEq

/-- Outcome of one call of the /search endpoint: the body passed to
`opensearch_client.search` (`none` would mean no store search was issued) and
the HTTP response — either a success body or a raised `HTTPException`. -/
structure SearchOutcome where
  issuedQuery : Option SearchQuery
  response : Except HTTPException SearchResponse

/-- api.py lines 74-117: the POST /search endpoint.  Embeds the query, builds
the search body with the default `top_k`, issues the store search, maps hits to
results; `except RequestError` becomes HTTP 400, `except Exception` becomes
HTTP 500. -/
def search (embed : String → List Int) (score : List Int → List Int → Int)
    (state : Option (List Record)) (request : QueryRequest) : SearchOutcome :=
  let query_embedding := embed request.query
  let search_query := create_search_query query_embedding 3
  match opensearchSearch score state search_query with
  | .ok hits =>
    { issuedQuery := some search_query
      response := .ok { results := hits.map (fun hit =>
        { text := hit.content.getD ""
          metadata := hit.metadata.getD []
          score := hit.score
          file_path := (((hit.metadata.getD []).find?
            (fun p => p.1 == "file_path")).map (fun p => p.2)).getD "N/A" }) } }
  | .error (.requestError d) =>
    { issuedQuery := some search_query
      response := .error { status_code := 400, detail := "Search request error: " ++ d } }
  | .error e =>
    { issuedQuery := some search_query
      response := .error { status_code := 500, detail := "Internal server error: " ++ strOfExn e } }

/-- HTTP status of the endpoint outcome: `none` on success, otherwise the
status code of the raised HTTPException. -/
def respStatus (o : SearchOutcome) : Option Nat :=
  match o.response with
  | .ok _ => none
  | .error e => some e.status_code

/-- Number of entries in the returned results list (0 when an exception was
raised). -/
def resultsLen (o : SearchOutcome) : Nat :=
  match o.response with
  | .ok r => r.results.length
  | .error _ => 0

/-- The status the spec's failure taxonomy assigns to a store outcome: a
store-reported malformed request is client-visible 400, any other store
failure is server-side 500, a success is no error status. -/
def storeOutcomeStatus : Except StoreException (List Hit) → Option Nat
  | .ok _ => none
  | .error (.requestError _) => some 400
  | .error (.notFound _) => some 500
  | .error (.other _) => some 500

/-! ### Basic lemmas about the store model -/

theorem insertHit_length (h : Hit) (l : List Hit) : (insertHit h l).length = l.length + 1 := by
  induction l with
  | nil => rfl
  | cons h2 rest ih =>
    simp only [insertHit]
    split
    · simp
    · simp [ih]

theorem sortHits_length (l : List Hit) : (sortHits l).length = l.length := by
  induction l with
  | nil => rfl
  | cons h rest ih => simp [sortHits, insertHit_length, ih]

/-! ### Ingestion pipeline model (embedding.py)

The filesystem/PDF extractor is an abstract parameter
`fs : String → Except String (List String)` mapping a file path to its list of
extracted page texts, or to the message of the exception raised while reading
it.  The token splitter (`TokenTextSplitter`, an external library component) is
an abstract parameter `split : String → List String`. -/

/-- Rendered log message `Processing: {file}` (embedding.py line 133). -/
def processingMsg (f : String) : String := s!"Processing: {f}"

/-- Rendered log message of read_pdf's error handler (embedding.py line 116). -/
def errorReadingMsg (f e : String) : String := s!"Error reading PDF {f}: {e}"

/-- Rendered log message of process_documents' error handler
(embedding.py line 138). -/
def errorProcessingMsg (f e : String) : String := s!"Error processing {f}: {e}"

/-- Rendered log message `Loaded {n} documents` (embedding.py line 141). -/
def loadedMsg (n : Nat) : String := s!"Loaded {n} documents"

/-- Rendered log message `Created {n} nodes` (embedding.py line 151). -/
def createdNodesMsg (n : Nat) : String := s!"Created {n} nodes"

/-- Rendered log message `Embedding dimension: {d}` (embedding.py line 165). -/
def embeddingDimMsg (d : Nat) : String := s!"Embedding dimension: {d}"

/-- Rendered message of the ValueError raised on a dimension mismatch
(embedding.py line 164). -/
def dimErrMsg (d : Nat) : String :=
  s!"Model produces {d}-dimensional vectors, but index expects {VECTOR_DIM} dimensions"

/-- Rendered log message `Created index {name}` (embedding.py line 97). -/
def createdIndexMsg : String := s!"Created index {OPENSEARCH_INDEX}"

/-- Rendered log message of force_update's error handler
(embedding.py line 216). -/
def forceErrMsg (e : String) : String := s!"Error during force update: {e}"

/-- A Document as produced by text extraction (embedding.py line 114):
the page texts joined with a newline after each page, plus the source path as
metadata. -/
structure Document where
  text : String
  metadata : List (String × String)
deriving DecidableEq

/-- The Document built by read_pdf from the extracted pages
(embedding.py lines 110-114). -/
def mkDocument (f : String) (pages : List String) : Document :=
  { text := String.join (pages.map (fun p => p ++ "\n"))
    metadata := [("file_path", f)] }

/-- embedding.py lines 106-117: read one PDF.  On success, the Document; on
failure, the error is logged (`Error reading PDF ...`) and re-raised. -/
def read_pdf (fs : String → Except String (List String)) (f : String) :
    Except String Document × List String :=
  match fs f with
  | .ok pages => (.ok (mkDocument f pages), [])
  | .error e => (.error e, [errorReadingMsg f e])

/-- The per-file loop of process_documents (embedding.py lines 131-139): log
`Processing`, try read_pdf, on failure log `Error processing` and continue with
the remaining files. -/
def processLoop (fs : String → Except String (List String)) :
    List String → List Document × List String
  | [] => ([], [])
  | f :: rest =>
    let r := processLoop fs rest
    match read_pdf fs f with
    | (.ok d, rlog) => (d :: r.1, (processingMsg f :: rlog) ++ r.2)
    | (.error e, rlog) => (r.1, (processingMsg f :: rlog ++ [errorProcessingMsg f e]) ++ r.2)

/-- embedding.py lines 119-142: process all PDF files, skipping unreadable
ones, then log `Loaded {n} documents` and return the loaded documents. -/
def process_documents (fs : String → Except String (List String))
    (files : List String) : List Document × List String :=
  let r := processLoop fs files
  (r.1, r.2 ++ [loadedMsg r.1.length])

/-- Whether `fs` can read file `f`. -/
def readable (fs : String → Except String (List String)) (f : String) : Bool :=
  match fs f with
  | .ok _ => true
  | .error _ => false

/-- The nodes produced by the splitter over all documents, in document order
(embedding.py lines 149-150); each node is a chunk text paired with its
document's metadata. -/
def mkNodes (split : String → List String) (documents : List Document) :
    List (String × List (String × String)) :=
  documents.flatMap (fun d => (split d.text).map (fun c => (c, d.metadata)))

/-- embedding.py lines 144-197: create the vector index from the documents.
Chunks the documents (logging `Created {n} nodes`), probes the embedding
dimension on the text "test" and raises ValueError when it differs from
`VECTOR_DIM` — before anything is written; otherwise embeds every node and
appends the resulting records to the store.  Returns (outcome, new store
contents, log). -/
def create_index (split : String → List String) (embed : String → List Int)
    (documents : List Document) (store : List Record) :
    Except String (List Record) × List Record × List String :=
  let nodes := mkNodes split documents
  let n := nodes.length
  let dim := (embed "test").length
  if dim ≠ VECTOR_DIM then
    (.error (dimErrMsg dim), store, [createdNodesMsg n])
  else
    let records := nodes.map (fun node =>
      { content := node.1, metadata := node.2, embedding := embed node.1 })
    (.ok records, store ++ records,
      [createdNodesMsg n, embeddingDimMsg dim, "Index created and saved to index.pkl"])

/-! ### Index existence check and creation (embedding.py lines 73-98) -/

/-- The fixed index schema (embedding.py lines 75-95): knn_vector embedding
field of dimension `VECTOR_DIM` with hnsw/cosinesimil/nmslib, a text field and
an object metadata field. -/
structure IndexMapping where
  embeddingType : String
  dimension : Nat
  methodName : String
  spaceType : String
  engine : String
  textFieldType : String
  metadataFieldType : String
deriving DecidableEq

/-- The mapping dict of embedding.py lines 75-95. -/
def indexMapping : IndexMapping :=
  { embeddingType := "knn_vector"
    dimension := VECTOR_DIM
    methodName := "hnsw"
    spaceType := "cosinesimil"
    engine := "nmslib"
    textFieldType := "text"
    metadataFieldType := "object" }

/-- Model of `client.indices.exists` on the index state (`none` = index
absent). -/
def indicesExists (s : Option IndexMapping) : Bool := s.isSome

/-- Model of `client.indices.create`: creating an already existing index
raises `resource_already_exists_exception`; otherwise the index now holds the
given mapping. -/
def indicesCreate (s : Option IndexMapping) (m : IndexMapping) :
    Except String (Option IndexMapping) :=
  match s with
  | some _ => .error "resource_already_exists_exception"
  | none => .ok (some m)

/-- embedding.py lines 73-97: the index-existence check and creation inside
setup_opensearch — create the index with the fixed mapping only when it does
not exist, logging `Created index ...` on creation. -/
def setupEnsureIndex (s : Option IndexMapping) :
    Except String (Option IndexMapping) × List String :=
  if indicesExists s then (.ok s, [])
  else
    match indicesCreate s indexMapping with
    | .ok s2 => (.ok s2, [createdIndexMsg])
    | .error e => (.error e, [])

/-! ### Top-level ingestion orchestration (embedding.py lines 199-217) -/

/-- embedding.py lines 199-217: force_update.  Ensures the index, processes
the documents, returns normally (logging `No documents found to process`) when
nothing was loaded, otherwise creates the index records; any raised error is
logged (`Error during force update: ...`) and re-raised.  Returns
(outcome, final index state, final store contents, log). -/
def force_update (split : String → List String) (embed : String → List Int)
    (fs : String → Except String (List String)) (files : List String)
    (idx : Option IndexMapping) (store : List Record) :
    Except String Unit × Option IndexMapping × List Record × List String :=
  match setupEnsureIndex idx with
  | (.error e, slog) => (.error e, idx, store, slog ++ [forceErrMsg e])
  | (.ok idx2, slog) =>
    let pd := process_documents fs files
    if pd.1.isEmpty then
      (.ok (), idx2, store, slog ++ pd.2 ++ ["No documents found to process"])
    else
      match create_index split embed pd.1 store with
      | (.ok _, store2, clog) =>
        (.ok (), idx2, store2,
          slog ++ pd.2 ++ clog ++ ["Force update completed successfully"])
      | (.error e, store2, clog) =>
        (.error e, idx2, store2, slog ++ pd.2 ++ clog ++ [forceErrMsg e])

/-- Whether `sub` occurs at the head of `s` (on character lists). -/
def startsWithChars : List Char → List Char → Bool
  | [], _ => true
  | _ :: _, [] => false
  | a :: as, b :: bs => a == b && startsWithChars as bs

/-- Whether `sub` occurs anywhere in `s` (on character lists). -/
def hasSubChars (sub : List Char) : List Char → Bool
  | [] => startsWithChars sub []
  | b :: bs => startsWithChars sub (b :: bs) || hasSubChars sub bs

/-- Whether a rendered log message mentions skipping (substring `kip`, covering
"skip"/"Skip"/"skipped"): used to express "reports a count of documents
skipped". -/
def containsSub (sub s : String) : Bool := hasSubChars sub.toList s.toList

/-- The log reports a count of skipped documents only if some message mentions
skipping. -/
def reportsSkippedCount (log : List String) : Prop :=
  ∃ msg ∈ log, containsSub "kip" msg = true

instance (log : List String) : Decidable (reportsSkippedCount log) := by
  unfold reportsSkippedCount
  infer_instance

/-! ### Store readiness polling and connection retry (embedding.py lines 38-104)

`wait_for_opensearch` polls `requests.get(OPENSEARCH_ENDPOINT)` until it
answers 200 or the 300-second deadline passes.  The k-th probe's outcome is
given by the abstract sequence `probe`; its round-trip time is `dur k + 1`
seconds (an HTTP round trip takes positive time — this is what makes the
time-bounded while loop terminate); a probe that raises is followed by
`time.sleep(5)`. -/

inductive ProbeOutcome where
  | ok200
  | badStatus
  | exn
deriving DecidableEq

/-- The while loop of wait_for_opensearch (embedding.py lines 41-49): `k` is
the probe counter, `elapsed` the seconds since `start_time`, `probes` the
number of probes already made.  Returns the outcome (`.ok true`, or the raised
TimeoutError) and the total number of probes made. -/
def waitLoop (probe : Nat → ProbeOutcome) (dur : Nat → Nat) (timeout : Nat) :
    Nat → Nat → Nat → Except String Bool × Nat
  | k, elapsed, probes =>
    if _h : elapsed < timeout then
      match probe k with
      | .ok200 => (.ok true, probes + 1)
      | .badStatus => waitLoop probe dur timeout (k + 1) (elapsed + (dur k + 1)) (probes + 1)
      | .exn => waitLoop probe dur timeout (k + 1) (elapsed + (dur k + 1) + 5) (probes + 1)
    else
      (.error "OpenSearch did not become ready in time", probes)
termination_by _ elapsed _ => timeout - elapsed
decreasing_by
  all_goals omega

/-- embedding.py lines 38-50: wait_for_opensearch with its default
timeout of 300 seconds. -/
def wait_for_opensearch (probe : Nat → ProbeOutcome) (dur : Nat → Nat) :
    Except String Bool × Nat :=
  waitLoop probe dur 300 0 0 0

/-- The retry loop of setup_opensearch (embedding.py lines 61-104): the
attempt body (building the client and ensuring the index) is the abstract
`conn`; a `ConnectionError` on the last attempt is re-raised, otherwise the
loop sleeps 5 seconds and retries.  Returns (result — `none` when the loop
falls through without running, as Python then returns None —, number of
attempts made, list of sleep durations). -/
def setupRetryLoop {α : Type} (conn : Nat → Except String α)
    (maxRetries : Nat) : Nat → Option (Except String α) × Nat × List Nat
  | attempt =>
    if _h : attempt < maxRetries then
      match conn attempt with
      | .ok c => (some (.ok c), 1, [])
      | .error e =>
        if attempt = maxRetries - 1 then (some (.error e), 1, [])
        else
          let r := setupRetryLoop conn maxRetries (attempt + 1)
          (r.1, r.2.1 + 1, 5 :: r.2.2)
    else (none, 0, [])
termination_by attempt => maxRetries - attempt
decreasing_by
  all_goals omega

/-- embedding.py line 52: setup_opensearch with its default max_retries=5. -/
def setup_opensearch {α : Type} (conn : Nat → Except String α) :
    Option (Except String α) × Nat × List Nat :=
  setupRetryLoop conn 5 0

/-! ### Theorems: query service claims -/

theorem opensearchSearch_ok_length (score : List Int → List Int → Int)
    (state : Option (List Record)) (q : SearchQuery) (hits : List Hit)
    (h : opensearchSearch score state q = .ok hits) : hits.length ≤ q.size := by
  unfold opensearchSearch at h
  cases state with
  | none => simp at h
  | some records =>
    simp only at h
    split at h
    · simp at h
    · simp only [Except.ok.injEq] at h
      subst h
      simp [List.length_take]

/-- C10: every call of the /search endpoint issues a store query with
`size = 3`, so the returned results list has at most 3 entries; the top-K
limit is 3 for every request, and the request carries nothing but the query
string by which to change it. -/
theorem c10_topk_fixed_at_three (embed : String → List Int)
    (score : List Int → List Int → Int) (state : Option (List Record))
    (req : QueryRequest) :
    (create_search_query (embed req.query) 3).size = 3 ∧
    (search embed score state req).issuedQuery = some (create_search_query (embed req.query) 3) ∧
    resultsLen (search embed score state req) ≤ 3 := by
  refine ⟨rfl, ?_, ?_⟩
  · unfold search
    cases h : opensearchSearch score state (create_search_query (embed req.query) 3) with
    | ok hits => simp [h]
    | error e => cases e <;> simp [h]
  · unfold resultsLen search
    cases h : opensearchSearch score state (create_search_query (embed req.query) 3) with
    | ok hits =>
      have hlen := opensearchSearch_ok_length score state _ hits h
      simp only [h]
      simpa using hlen
    | error e => cases e <;> simp [h]

/-- C5: the endpoint maps every store failure to exactly the HTTP status the
spec's taxonomy assigns it — a store-reported malformed request
(`RequestError`) to 400, every other store failure to 500, and a success to no
error status; the two failure categories are never conflated. -/
theorem c5_error_category_routing (embed : String → List Int)
    (score : List Int → List Int → Int) (state : Option (List Record))
    (req : QueryRequest) :
    respStatus (search embed score state req) =
      storeOutcomeStatus (opensearchSearch score state (create_search_query (embed req.query) 3)) := by
  unfold respStatus search storeOutcomeStatus
  cases h : opensearchSearch score state (create_search_query (embed req.query) 3) with
  | ok hits => simp [h]
  | error e => cases e <;> simp [h]

/-- C2 counterexample: searching when the index does not exist does NOT return
an empty result list — the store's not-found exception reaches the generic
handler and the endpoint raises an HTTP 500 error, and no response field
distinguishes "no index" from "no matches". -/
theorem c2_counterexample :
    (search (fun _ => []) (fun _ _ => 0) none { query := "q" }).response =
      .error { status_code := 500, detail := "Internal server error: " ++ notFoundDetail } := by
  rfl

/-- C2 amended: searching an existing-but-empty collection returns the body
`{results := []}` and no exception, but that body carries no status flag —
it is the same body an index with no matches would produce — and searching a
nonexistent collection raises an exception surfaced as HTTP 500 rather than
returning an empty list. -/
theorem c2_empty_vs_missing_index (embed : String → List Int)
    (score : List Int → List Int → Int) (req : QueryRequest) :
    (search embed score (some []) req).response = .ok { results := [] } ∧
    (search embed score none req).response =
      .error { status_code := 500, detail := "Internal server error: " ++ notFoundDetail } := by
  constructor
  · simp [search, opensearchSearch, sortHits]
  · simp [search, opensearchSearch, strOfExn]

/-- C3 counterexample: a request whose query is the empty string is not
rejected — the endpoint embeds it, issues the store search and answers 200
with a result list. -/
theorem c3_counterexample :
    (search (fun _ => []) (fun _ _ => 0) (some []) { query := "" }).issuedQuery =
      some (create_search_query [] 3) ∧
    (search (fun _ => []) (fun _ _ => 0) (some []) { query := "" }).response =
      .ok { results := [] } := by
  constructor <;> rfl

/-- C3 amended: the search endpoint performs no validation of the query
string — every request, including an empty or whitespace-only query, is
embedded and a store search is issued for it. -/
theorem c3_no_query_validation (embed : String → List Int)
    (score : List Int → List Int → Int) (state : Option (List Record))
    (req : QueryRequest) :
    (search embed score state req).issuedQuery =
      some (create_search_query (embed req.query) 3) := by
  unfold search
  cases h : opensearchSearch score state (create_search_query (embed req.query) 3) with
  | ok hits => simp [h]
  | error e => cases e <;> simp [h]

/-- C1 counterexample: the embedder configurations of the two paths are not
identical — ingestion loads the model through
llama_index's HuggingFaceEmbedding with max_length 512, the query service
through sentence_transformers' SentenceTransformer with no max length and a
float32 output cast. -/
theorem c1_counterexample : ingestionEmbedderConfig ≠ queryEmbedderConfig := by
  decide

/-- C1 amended: the two paths share the model name 'BAAI/bge-m3', but load it
through different wrapper libraries with different max-length configuration
and output handling, so identity of the full embedding function (same
normalization, same vector for every text) is not established by the code. -/
theorem c1_same_model_name :
    ingestionEmbedderConfig.modelName = queryEmbedderConfig.modelName := by
  rfl

/-- C4 counterexample: when the query-time embedding model produces a vector
whose length differs from the configured 1024, the search operation does NOT
abort before a search is issued — the endpoint sends the mismatched vector to
the store. -/
theorem c4_counterexample :
    ((fun _ : String => ([0, 0] : List Int)) "test").length ≠ VECTOR_DIM ∧
    (search (fun _ => [0, 0]) (fun _ _ => 0)
      (some [{ content := "t", metadata := [], embedding := [0, 0, 0] }])
      { query := "q" }).issuedQuery ≠ none := by
  constructor
  · decide
  · decide

/-- C4 amended: ingestion aborts with the fatal dimension ValueError before
any record is written when the probe embedding's length differs from 1024; the
query path performs no local dimension check and issues the search with the
mismatched vector, relying on the store to reject it, which the endpoint
surfaces as an HTTP 400 error. -/
theorem c4_dimension_check (split : String → List String) (embed : String → List Int)
    (documents : List Document) (store : List Record)
    (score : List Int → List Int → Int) (records : List Record) (req : QueryRequest)
    (hdim : (embed "test").length ≠ VECTOR_DIM)
    (hmismatch : records.any (fun r => r.embedding.length ≠ (embed req.query).length) = true) :
    (create_index split embed documents store).1 = .error (dimErrMsg (embed "test").length) ∧
    (create_index split embed documents store).2.1 = store ∧
    (search embed score (some records) req).issuedQuery =
      some (create_search_query (embed req.query) 3) ∧
    respStatus (search embed score (some records) req) = some 400 := by
  have hprop : ∃ x ∈ records, ¬x.embedding.length = (embed req.query).length := by
    simpa using hmismatch
  refine ⟨?_, ?_, ?_, ?_⟩
  · simp [create_index, hdim]
  · simp [create_index, hdim]
  · simp [search, opensearchSearch, create_search_query, hprop]
  · simp [search, opensearchSearch, create_search_query, hprop, respStatus]

/-- Witness for C4's amended theorem at a model of dimension 2 against a
record of dimension 3. -/
theorem c4_dimension_check_witness :
    (create_index (fun t => [t]) (fun _ => [0, 0]) [] []).1 = .error (dimErrMsg 2) ∧
    (create_index (fun t => [t]) (fun _ => [0, 0]) [] []).2.1 = [] ∧
    (search (fun _ => [0, 0]) (fun _ _ => 0)
      (some [{ content := "t", metadata := [], embedding := [1, 2, 3] }])
      { query := "q" }).issuedQuery = some (create_search_query [0, 0] 3) ∧
    respStatus (search (fun _ => [0, 0]) (fun _ _ => 0)
      (some [{ content := "t", metadata := [], embedding := [1, 2, 3] }])
      { query := "q" }) = some 400 := by
  exact c4_dimension_check (fun t => [t]) (fun _ => [0, 0]) [] [] (fun _ _ => 0)
    [{ content := "t", metadata := [], embedding := [1, 2, 3] }] { query := "q" }
    (by decide) (by decide)

/-- C6: the index-existence check and creation in setup_opensearch is
idempotent — when the index already exists it performs no create (empty log),
raises no error, and leaves the existing schema unchanged; and whatever state
one call produces, a second call is a no-op on it, so calling it twice is
equivalent to calling it once. -/
theorem c6_ensure_index_idempotent :
    (∀ m : IndexMapping, setupEnsureIndex (some m) = (.ok (some m), [])) ∧
    (∀ s s2 : Option IndexMapping, (setupEnsureIndex s).1 = .ok s2 →
      setupEnsureIndex s2 = (.ok s2, [])) := by
  constructor
  · intro m
    rfl
  · intro s s2 h
    cases s with
    | none =>
      simp [setupEnsureIndex, indicesExists, indicesCreate] at h
      subst h
      rfl
    | some m =>
      simp [setupEnsureIndex, indicesExists] at h
      subst h
      rfl

/-- Witness for C6: starting from an absent index, the first call creates it
and a second call on the resulting state is a no-op. -/
theorem c6_ensure_index_idempotent_witness :
    setupEnsureIndex (some indexMapping) = (.ok (some indexMapping), []) := by
  exact c6_ensure_index_idempotent.2 none (some indexMapping) rfl

/-! ### Theorems: ingestion pipeline claims -/

theorem processLoop_docs (fs : String → Except String (List String)) :
    ∀ files : List String, (processLoop fs files).1 =
      files.filterMap (fun f => match fs f with
        | .ok pages => some (mkDocument f pages)
        | .error _ => none) := by
  intro files
  induction files with
  | nil => rfl
  | cons f rest ih =>
    cases h : fs f with
    | ok pages => simp [processLoop, read_pdf, h, List.filterMap_cons, ih]
    | error e => simp [processLoop, read_pdf, h, List.filterMap_cons, ih]

theorem processLoop_length (fs : String → Except String (List String)) :
    ∀ files : List String,
      (processLoop fs files).1.length = (files.filter (readable fs)).length := by
  intro files
  induction files with
  | nil => rfl
  | cons f rest ih =>
    cases h : fs f with
    | ok pages => simp [processLoop, read_pdf, readable, h, List.filter_cons, ih]
    | error e => simp [processLoop, read_pdf, readable, h, List.filter_cons, ih]

theorem filter_not_readable_length (fs : String → Except String (List String)) :
    ∀ files : List String,
      (files.filter (readable fs)).length +
        (files.filter (fun f => !readable fs f)).length = files.length := by
  intro files
  induction files with
  | nil => rfl
  | cons f rest ih =>
    by_cases h : readable fs f = true
    · simp [List.filter_cons, h]
      omega
    · simp only [Bool.not_eq_true] at h
      simp [List.filter_cons, h]
      omega

/-- C7: document processing never aborts on a bad file — for every batch of
files it completes, yields exactly the documents of the readable files in
order, and the number of yielded documents plus the number of unreadable
(skipped) files equals the batch size. -/
theorem c7_per_document_failure_resilience (fs : String → Except String (List String))
    (files : List String) :
    (process_documents fs files).1 =
      files.filterMap (fun f => match fs f with
        | .ok pages => some (mkDocument f pages)
        | .error _ => none) ∧
    (process_documents fs files).1.length = (files.filter (readable fs)).length ∧
    (process_documents fs files).1.length +
      (files.filter (fun f => !readable fs f)).length = files.length := by
  refine ⟨?_, ?_, ?_⟩
  · simpa [process_documents] using processLoop_docs fs files
  · simpa [process_documents] using processLoop_length fs files
  · have h1 := processLoop_length fs files
    have h2 := filter_not_readable_length fs files
    simp [process_documents]
    omega

theorem waitLoop_spec (probe : Nat → ProbeOutcome) (dur : Nat → Nat) :
    ∀ n timeout k elapsed probes : Nat, timeout - elapsed ≤ n →
      (waitLoop probe dur timeout k elapsed probes).2 ≤ probes + (timeout - elapsed) ∧
      ((waitLoop probe dur timeout k elapsed probes).1 = .ok true ∨
        (waitLoop probe dur timeout k elapsed probes).1 =
          .error "OpenSearch did not become ready in time") := by
  intro n
  induction n with
  | zero =>
    intro timeout k elapsed probes hn
    have hlt : ¬ elapsed < timeout := by omega
    rw [waitLoop]
    simp [hlt]
  | succ n ih =>
    intro timeout k elapsed probes hn
    by_cases hlt : elapsed < timeout
    · rw [waitLoop]
      simp only [hlt, dite_true, dif_pos]
      cases hp : probe k with
      | ok200 =>
        constructor
        · simp
          omega
        · simp
      | badStatus =>
        have h2 := ih timeout (k + 1) (elapsed + (dur k + 1)) (probes + 1) (by omega)
        constructor
        · calc (waitLoop probe dur timeout (k + 1) (elapsed + (dur k + 1)) (probes + 1)).2
              ≤ (probes + 1) + (timeout - (elapsed + (dur k + 1))) := h2.1
            _ ≤ probes + (timeout - elapsed) := by omega
        · exact h2.2
      | exn =>
        have h2 := ih timeout (k + 1) (elapsed + (dur k + 1) + 5) (probes + 1) (by omega)
        constructor
        · calc (waitLoop probe dur timeout (k + 1) (elapsed + (dur k + 1) + 5) (probes + 1)).2
              ≤ (probes + 1) + (timeout - (elapsed + (dur k + 1) + 5)) := h2.1
            _ ≤ probes + (timeout - elapsed) := by omega
        · exact h2.2
    · rw [waitLoop]
      simp [hlt]

theorem setupRetryLoop_spec {α : Type} (conn : Nat → Except String α) :
    ∀ n maxRetries attempt : Nat, maxRetries - attempt ≤ n →
      (setupRetryLoop conn maxRetries attempt).2.1 ≤ maxRetries - attempt ∧
      (setupRetryLoop conn maxRetries attempt).2.2.all (fun s => s == 5) = true := by
  intro n
  induction n with
  | zero =>
    intro maxRetries attempt hn
    have hlt : ¬ attempt < maxRetries := by omega
    rw [setupRetryLoop]
    simp [hlt]
  | succ n ih =>
    intro maxRetries attempt hn
    by_cases hlt : attempt < maxRetries
    · rw [setupRetryLoop]
      simp only [hlt, dite_true, dif_pos]
      cases hc : conn attempt with
      | ok c =>
        constructor
        · simp
          omega
        · simp
      | error e =>
        by_cases hlast : attempt = maxRetries - 1
        · simp [hlast]
          omega
        · have h2 := ih maxRetries (attempt + 1) (by omega)
          simp only [hlast, if_false, ite_false]
          constructor
          · have := h2.1
            omega
          · simpa using h2.2
    · rw [setupRetryLoop]
      simp [hlt]

theorem setupRetryLoop_exhaust {α : Type} (conn : Nat → Except String α) (err : Nat → String) :
    ∀ n maxRetries attempt : Nat, maxRetries - attempt ≤ n → attempt < maxRetries →
      (∀ i, attempt ≤ i → i < maxRetries → conn i = .error (err i)) →
      (setupRetryLoop conn maxRetries attempt).1 = some (.error (err (maxRetries - 1))) := by
  intro n
  induction n with
  | zero =>
    intro maxRetries attempt hn hlt
    omega
  | succ n ih =>
    intro maxRetries attempt hn hlt hconn
    rw [setupRetryLoop]
    simp only [hlt, dite_true, dif_pos]
    rw [hconn attempt (by omega) hlt]
    by_cases hlast : attempt = maxRetries - 1
    · simp [hlast]
    · have hrec := ih maxRetries (attempt + 1) (by omega) (by omega)
        (fun i h1 h2 => hconn i (by omega) h2)
      simp [hlast, hrec]

/-- C8: store-readiness handling always terminates within its bounds — the
readiness poll makes at most 300 probes (its 300-second deadline, each probe
taking at least a second) and ends either ready or with the TimeoutError;
connection setup makes at most 5 attempts, every backoff sleep between
attempts is exactly 5 seconds, and when every attempt fails with a connection
error the last error is re-raised. -/
theorem c8_bounded_readiness_and_retry (probe : Nat → ProbeOutcome) (dur : Nat → Nat)
    {α : Type} (conn : Nat → Except String α) (err : Nat → String) :
    (wait_for_opensearch probe dur).2 ≤ 300 ∧
    ((wait_for_opensearch probe dur).1 = .ok true ∨
      (wait_for_opensearch probe dur).1 = .error "OpenSearch did not become ready in time") ∧
    (setup_opensearch conn).2.1 ≤ 5 ∧
    (setup_opensearch conn).2.2.all (fun s => s == 5) = true ∧
    ((∀ i, i < 5 → conn i = .error (err i)) →
      (setup_opensearch conn).1 = some (.error (err 4))) := by
  have hw := waitLoop_spec probe dur 300 300 0 0 0 (by omega)
  have hs := setupRetryLoop_spec conn 5 5 0 (by omega)
  refine ⟨?_, hw.2, ?_, hs.2, ?_⟩
  · simpa [wait_for_opensearch] using hw.1
  · simpa [setup_opensearch] using hs.1
  · intro hfail
    have := setupRetryLoop_exhaust conn err 5 5 0 (by omega) (by omega)
      (fun i _ h2 => hfail i h2)
    simpa [setup_opensearch] using this

/-- Witness for C8 at a probe sequence that always raises and a connection
that is always refused. -/
theorem c8_bounded_readiness_and_retry_witness :
    (wait_for_opensearch (fun _ => .exn) (fun _ => 0)).2 ≤ 300 ∧
    (setup_opensearch (fun _ => (.error "connection refused" : Except String Unit))).1 =
      some (.error "connection refused") := by
  have h := c8_bounded_readiness_and_retry (fun _ => .exn) (fun _ => 0)
    (fun _ => (.error "connection refused" : Except String Unit)) (fun _ => "connection refused")
  exact ⟨h.1, h.2.2.2.2 (fun i _ => rfl)⟩

/-! ### Theorems: ingestion run reporting (claim C9) -/

/-- The full log of one force_update run. -/
def forceUpdateLog (split : String → List String) (embed : String → List Int)
    (fs : String → Except String (List String)) (files : List String)
    (idx : Option IndexMapping) (store : List Record) : List String :=
  (force_update split embed fs files idx store).2.2.2

theorem setupEnsureIndex_ok (idx : Option IndexMapping) :
    ∃ s2 slog, setupEnsureIndex idx = (.ok s2, slog) := by
  cases idx with
  | none => exact ⟨some indexMapping, [createdIndexMsg], rfl⟩
  | some m => exact ⟨some m, [], rfl⟩

theorem mem_forceUpdateLog_of_plog (split : String → List String)
    (embed : String → List Int) (fs : String → Except String (List String))
    (files : List String) (idx : Option IndexMapping) (store : List Record)
    (m : String) (hm : m ∈ (process_documents fs files).2) :
    m ∈ forceUpdateLog split embed fs files idx store := by
  obtain ⟨s2, slog, hseq⟩ := setupEnsureIndex_ok idx
  unfold forceUpdateLog force_update
  rw [hseq]
  dsimp only
  split
  · simp [hm]
  · split
    · simp [hm]
    · simp [hm]

theorem createdNodes_mem_forceUpdateLog (split : String → List String)
    (embed : String → List Int) (fs : String → Except String (List String))
    (files : List String) (idx : Option IndexMapping) (store : List Record)
    (hne : (process_documents fs files).1 ≠ []) :
    createdNodesMsg (mkNodes split (process_documents fs files).1).length ∈
      forceUpdateLog split embed fs files idx store := by
  obtain ⟨s2, slog, hseq⟩ := setupEnsureIndex_ok idx
  unfold forceUpdateLog force_update
  rw [hseq]
  dsimp only
  split
  · rename_i hempty
    exact absurd (by simpa using hempty) hne
  · split
    · rename_i records store2 clog heq
      unfold create_index at heq
      dsimp only at heq
      split at heq
      · simp at heq
      · simp only [Prod.mk.injEq] at heq
        rw [← heq.2.2]
        simp
    · rename_i e store2 clog heq
      unfold create_index at heq
      dsimp only at heq
      split at heq
      · simp only [Prod.mk.injEq] at heq
        rw [← heq.2.2]
        simp
      · simp at heq

theorem processLoop_error_mem (fs : String → Except String (List String)) :
    ∀ (files : List String) (f e : String), f ∈ files → fs f = .error e →
      errorProcessingMsg f e ∈ (processLoop fs files).2 := by
  intro files
  induction files with
  | nil =>
    intro f e hmem
    simp at hmem
  | cons g rest ih =>
    intro f e hmem hfs
    rcases List.mem_cons.mp hmem with h | h
    · subst h
      simp [processLoop, read_pdf, hfs]
    · cases hg : fs g with
      | ok pages =>
        have := ih f e h hfs
        simp [processLoop, read_pdf, hg]
        tauto
      | error e2 =>
        have := ih f e h hfs
        simp [processLoop, read_pdf, hg]
        tauto

theorem loadedMsg_mem_plog (fs : String → Except String (List String))
    (files : List String) :
    loadedMsg (process_documents fs files).1.length ∈ (process_documents fs files).2 := by
  simp [process_documents]

/-- C9 amended: every ingestion run that reaches document processing reports
the count of documents loaded (`Loaded {n} documents`); each skipped document
is reported by its own `Error processing ...` message rather than by an
aggregate skipped count; and the chunk count (`Created {k} nodes`) is reported
exactly when at least one document loaded — a zero-document run reports
`No documents found to process` instead. -/
theorem c9_run_reporting (split : String → List String) (embed : String → List Int)
    (fs : String → Except String (List String)) (files : List String)
    (idx : Option IndexMapping) (store : List Record) :
    loadedMsg (process_documents fs files).1.length ∈
      forceUpdateLog split embed fs files idx store ∧
    (∀ f ∈ files, ∀ e, fs f = .error e →
      errorProcessingMsg f e ∈ forceUpdateLog split embed fs files idx store) ∧
    ((process_documents fs files).1 ≠ [] →
      createdNodesMsg (mkNodes split (process_documents fs files).1).length ∈
        forceUpdateLog split embed fs files idx store) := by
  refine ⟨?_, ?_, ?_⟩
  · exact mem_forceUpdateLog_of_plog split embed fs files idx store _
      (loadedMsg_mem_plog fs files)
  · intro f hf e he
    refine mem_forceUpdateLog_of_plog split embed fs files idx store _ ?_
    have := processLoop_error_mem fs files f e hf he
    simp [process_documents]
    tauto
  · exact createdNodes_mem_forceUpdateLog split embed fs files idx store

/-- Witness for C9's amended theorem: a two-file run where the second file is
unreadable reports `Loaded 1 documents`, the per-file error message, and
`Created 1 nodes`. -/
theorem c9_run_reporting_witness :
    loadedMsg (process_documents
        (fun f => if f = "a.pdf" then .ok ["hello"] else .error "bad")
        ["a.pdf", "b.pdf"]).1.length ∈
      forceUpdateLog (fun t => [t]) (fun _ => List.replicate 1024 0)
        (fun f => if f = "a.pdf" then .ok ["hello"] else .error "bad")
        ["a.pdf", "b.pdf"] (some indexMapping) [] ∧
    errorProcessingMsg "b.pdf" "bad" ∈
      forceUpdateLog (fun t => [t]) (fun _ => List.replicate 1024 0)
        (fun f => if f = "a.pdf" then .ok ["hello"] else .error "bad")
        ["a.pdf", "b.pdf"] (some indexMapping) [] ∧
    createdNodesMsg (mkNodes (fun t => [t]) (process_documents
        (fun f => if f = "a.pdf" then .ok ["hello"] else .error "bad")
        ["a.pdf", "b.pdf"]).1).length ∈
      forceUpdateLog (fun t => [t]) (fun _ => List.replicate 1024 0)
        (fun f => if f = "a.pdf" then .ok ["hello"] else .error "bad")
        ["a.pdf", "b.pdf"] (some indexMapping) [] := by
  have h := c9_run_reporting (fun t => [t]) (fun _ => List.replicate 1024 0)
    (fun f => if f = "a.pdf" then .ok ["hello"] else .error "bad")
    ["a.pdf", "b.pdf"] (some indexMapping) []
  exact ⟨h.1, h.2.1 "b.pdf" (by simp) "bad" (by simp), h.2.2 (by decide)⟩

set_option maxRecDepth 8192 in
/-- C9 counterexample: an ingestion run with one readable and one unreadable
document concludes without reporting any count of skipped documents — no
message of its log even mentions skipping; the run reports the loaded-document
and node counts only. -/
theorem c9_counterexample :
    ¬ reportsSkippedCount (forceUpdateLog (fun t => [t]) (fun _ => List.replicate 1024 0)
      (fun f => if f = "a.pdf" then .ok ["hello"] else .error "bad")
      ["a.pdf", "b.pdf"] (some indexMapping) []) := by
  decide
